import Mathlib

/-!
Shallow embedding of the DeepWitness witness-interview simulator
(`src/App.tsx`) and proofs about its session state machine.

The React component keeps its whole session in a handful of `useState`
cells; we model that as a record `AppState` and each handler
(`startSimulation`, `handleSendMessage`, `endInterview`) as a pure
function from the pre-call state and the outcome of the external
generative-model call to the post-call state plus an observable action.
JavaScript runtime values that flow in unvalidated from `JSON.parse`
are modelled by a small `JsValue` type (with `undefined`, since missing
object properties read as `undefined`, and property access on `null`
throwing).
-/

/-- A minimal model of JavaScript/JSON runtime values as they appear in
the handlers: `JSON.parse` output and the values stored into
`latestState` / `currentPhase` (which are unvalidated, so they can hold
anything, including `undefined`). JSON numbers are modelled as integers;
no claim computes with them. -/
inductive JsValue where
  | undefined : JsValue
  | null : JsValue
  | bool : Bool → JsValue
  | num : Int → JsValue
  | str : String → JsValue
  | arr : List JsValue → JsValue
  | obj : List (String × JsValue) → JsValue

/-- Property access on `null` or `undefined` throws a `TypeError` in
JavaScript; the `catch` in `handleSendMessage` turns that into the
fallback path, so we branch on this predicate before reading fields. -/
def JsValue.isNullish : JsValue → Bool
  | .null => true
  | .undefined => true
  | _ => false

/-- `v.k` for a non-nullish JavaScript value `v`: a present object
property yields its value, a missing property (and any property of a
primitive or array) yields `undefined`. -/
def JsValue.getField : JsValue → String → JsValue
  | .obj fs, k => (fs.lookup k).getD .undefined
  | _, _ => .undefined

/-- Model of `String.prototype.toLowerCase` (adequate for the ASCII
strings compared in the app). -/
def jsToLower (s : String) : String := ⟨s.data.map Char.toLower⟩

/-- Model of `String.prototype.trim`: strip leading and trailing
whitespace. -/
def jsTrim (s : String) : String :=
  ⟨((s.data.dropWhile Char.isWhitespace).reverse.dropWhile Char.isWhitespace).reverse⟩

/-- Modelled from the spec: `types.ts` is not under `src/`; the spec
fixes the tiers as Beginner, Intermediate, Advanced, Crisis, and
`App.tsx` lines 146-149 reference exactly these four members. -/
inductive Difficulty where
  | beginner | intermediate | advanced | crisis
deriving DecidableEq

/-- Modelled from the spec: `types.ts` is not under `src/`. The seven
bounded numeric witness attributes of the hidden internal state. -/
structure InternalState where
  truthfulness : Int
  stress : Int
  defensiveness : Int
  cooperation : Int
  memory : Int
  exposure : Int
  legalRisk : Int
deriving DecidableEq

/-- The fixed baseline announced to the model in the system prompt of
`startSimulation` (`App.tsx` line 50): truthfulness 70, stress 10,
defensiveness 20, cooperation 80, memory 90, exposure 5, legal risk 0. -/
def baselineInternalState : InternalState :=
  { truthfulness := 70, stress := 10, defensiveness := 20, cooperation := 80
    memory := 90, exposure := 5, legalRisk := 0 }

/-- The `INITIAL STATE` line of the system prompt, rebuilt from a state
record the way `App.tsx` line 50 writes it. -/
def statePromptLine (s : InternalState) : String :=
  "Truthfulness: " ++ toString s.truthfulness ++ ", Stress: " ++ toString s.stress ++
  ", Defensiveness: " ++ toString s.defensiveness ++ ", Cooperation: " ++ toString s.cooperation ++
  ", Memory: " ++ toString s.memory ++ ", Exposure: " ++ toString s.exposure ++
  ", Legal Risk: " ++ toString s.legalRisk ++ "."

/-- The hidden-state snapshot as a JSON object, for comparison with the
`JsValue` stored in `latestState` (field names follow the external
contract and only matter up to being a non-null object here). -/
def InternalState.toJs (s : InternalState) : JsValue :=
  .obj [("truthfulness", .num s.truthfulness), ("stress", .num s.stress),
        ("defensiveness", .num s.defensiveness), ("cooperation", .num s.cooperation),
        ("memory", .num s.memory), ("exposure", .num s.exposure),
        ("legalRisk", .num s.legalRisk)]

/-- Modelled from the spec: `types.ts` is not under `src/`. Scenario
record produced once per session by the scenario generator; `App.tsx`
reads exactly these fields. -/
structure Scenario where
  investigationType : String
  companyBackground : String
  jurisdiction : String
  regulatoryExposure : String
  witnessRole : String
  witnessArchetype : String
  witnessIntroduction : String
  documentUniverse : String
  hiddenGroundTruth : String
  keyRiskNodes : List String
deriving DecidableEq

/-- Modelled from the spec: `types.ts` is not under `src/`. The final
evaluation report; `App.tsx` reads exactly these fields. -/
structure FinalReport where
  timelineReconstructionScore : Int
  contradictionIdentificationScore : Int
  riskEscalationAwareness : Int
  interviewControlAssessment : Int
  behavioralAnalysis : String
  legalExposureAnalysis : String
  missedFollowUps : List String
  improvedQuestioningPaths : List String
deriving DecidableEq

/-- Author of a transcript entry. -/
inductive Role where
  | user | model
deriving DecidableEq

/-- One transcript entry (`Message` in `types.ts`): role, text, and the
optional phase / hidden-state snapshot attached to model replies
(`App.tsx` lines 95-100). The text is a `JsValue` because a model reply
whose parsed JSON lacks `witnessResponse` stores `undefined` there. -/
structure Message where
  role : Role
  text : JsValue
  phase : Option JsValue := none
  hiddenState : Option JsValue := none

/-- Modelled from the spec: `types.ts` is not under `src/`; the spec
names Rapport as the first of the interview phases and `App.tsx`
line 16 starts `currentPhase` at `InterviewPhase.RAPPORT`. -/
def rapportPhase : JsValue := .str "Rapport"

/-- The `useState` cells of the `App` component (`App.tsx` lines 8-16).
`chatSession` carries no behaviour of its own (its `sendMessage` is the
external oracle), so it is modelled as `Option Unit`; `latestState` and
`currentPhase` are raw `JsValue`s because the code stores unvalidated
parsed JSON into them. -/
structure AppState where
  difficulty : Option Difficulty
  scenario : Option Scenario
  messages : List Message
  inputValue : String
  isGenerating : Bool
  chatSession : Option Unit
  finalReport : Option FinalReport
  latestState : JsValue
  currentPhase : JsValue

/-- The initial render state: every cell at its `useState` initial
value (`App.tsx` lines 8-16); this is the `Uninitialized` machine
state of the spec. -/
def initialAppState : AppState :=
  { difficulty := none, scenario := none, messages := [], inputValue := ""
    isGenerating := false, chatSession := none, finalReport := none
    latestState := .null, currentPhase := rapportPhase }

/-- `startSimulation` (`App.tsx` lines 26-72), with the outcome of the
external `generateScenario` call passed in as an `Except`. The function
sets `difficulty` before the `try` block; on success it stores the
scenario, creates the chat session and seeds the transcript with the
one witness-introduction message; on failure it only shows an alert
(the returned `Bool`). `isGenerating` is reset in `finally`. -/
def startSimulation (st : AppState) (diff : Difficulty)
    (gen : Except Unit Scenario) : AppState × Bool :=
  let started := { st with isGenerating := true, difficulty := some diff }
  match gen with
  | .ok sc =>
      ({ started with
          scenario := some sc
          chatSession := some ()
          messages := [{ role := .model, text := .str sc.witnessIntroduction }]
          isGenerating := false }, false)
  | .error _ => ({ started with isGenerating := false }, true)

/-- What `endInterview` did besides updating state: stored the report,
or logged the error to the console (`console.error`, `App.tsx`
line 115). -/
inductive EndOutcome where
  | reportStored | errorLogged
deriving DecidableEq

/-- `endInterview` (`App.tsx` lines 109-119), with the outcome of the
external `generateFeedback` call passed in. Note there is no
`isGenerating` guard: the report generator is invoked unconditionally.
On success the report is stored; on failure only `console.error` runs.
`isGenerating` ends `false` either way (the `finally` block). -/
def endInterview (st : AppState) (gen : Except Unit FinalReport) :
    AppState × EndOutcome :=
  match gen with
  | .ok r => ({ st with finalReport := some r, isGenerating := false }, .reportStored)
  | .error _ => ({ st with isGenerating := false }, .errorLogged)

/-- Observable action of one `handleSendMessage` call: rejected by the
guard, diverted to `endInterview`, or a normal turn that invoked the
chat oracle. -/
inductive SendAction where
  | noop | concludeCalled | turnCalled
deriving DecidableEq

/-- Text of the fallback model message appended when a turn fails
(`App.tsx` line 103). -/
def fallbackText : String :=
  "I\x27m sorry, I\x27m having trouble processing that question."

/-- The fallback transcript entry. -/
def fallbackMessage : Message := { role := .model, text := .str fallbackText }

/-- A user-authored transcript entry. -/
def userMessage (t : String) : Message := { role := .user, text := .str t }

/-- The state visible while the chat oracle call is awaited (`App.tsx`
lines 83-86): input cleared, user message already appended, busy flag
set. -/
def awaitingState (st : AppState) (userText : String) : AppState :=
  { st with inputValue := ""
            messages := st.messages ++ [userMessage userText]
            isGenerating := true }

/-- Appending the fallback message and clearing the busy flag: the
`catch`/`finally` tail of a failed turn (`App.tsx` lines 101-106). -/
def appendFallback (st : AppState) : AppState :=
  { st with messages := st.messages ++ [fallbackMessage], isGenerating := false }

/-- Applying a successfully parsed reply `data` (`App.tsx` lines
90-100): if `data` is nullish, the first property access throws and the
`catch` appends the fallback instead; otherwise the three properties
are read and applied with no further validation. -/
def applyReply (pending : AppState) (data : JsValue) : AppState :=
  if data.isNullish then appendFallback pending
  else
    { pending with
        latestState := data.getField "updatedState"
        currentPhase := data.getField "currentPhase"
        messages := pending.messages ++
          [{ role := .model, text := data.getField "witnessResponse",
             phase := some (data.getField "currentPhase"),
             hiddenState := some (data.getField "updatedState") }]
        isGenerating := false }

/-- `handleSendMessage` (`App.tsx` lines 74-107), with the combined
outcome of `chatSession.sendMessage` plus `JSON.parse` passed in as
`sendO` (`.error` for a thrown network or parse error, `.ok data` for
parsed JSON `data`), and the report-generator outcome `reportO` used
only on the sentinel path, which calls `endInterview` without touching
the transcript or the input value. -/
def handleSendMessage (st : AppState) (sendO : Except Unit JsValue)
    (reportO : Except Unit FinalReport) : AppState × SendAction :=
  if jsTrim st.inputValue = "" ∨ st.chatSession = none ∨ st.isGenerating = true then
    (st, .noop)
  else if jsToLower st.inputValue = "end interview" then
    ((endInterview st reportO).1, .concludeCalled)
  else
    let pending := awaitingState st st.inputValue
    match sendO with
    | .ok data => (applyReply pending data, .turnCalled)
    | .error _ => (appendFallback pending, .turnCalled)

/-- Iterating `handleSendMessage` over a list of (question, parsed
reply) pairs, each with a successful oracle call. -/
def runTurns (st : AppState) : List (String × JsValue) → AppState
  | [] => st
  | (q, d) :: rest =>
      runTurns (handleSendMessage { st with inputValue := q } (.ok d) (.error ())).1 rest

/-- A sample scenario used to instantiate theorems at concrete inputs. -/
def sampleScenario : Scenario :=
  { investigationType := "Internal fraud inquiry"
    companyBackground := "Acme Holdings, a mid-size importer"
    jurisdiction := "US federal"
    regulatoryExposure := "High"
    witnessRole := "Chief financial officer"
    witnessArchetype := "Evasive professional"
    witnessIntroduction := "Good morning. I was told you had questions."
    documentUniverse := "Email archive and ledgers"
    hiddenGroundTruth := "The transfers were backdated."
    keyRiskNodes := ["backdated transfers", "offshore account"] }

/-- A sample final report used to instantiate theorems at concrete
inputs. -/
def sampleReport : FinalReport :=
  { timelineReconstructionScore := 72
    contradictionIdentificationScore := 64
    riskEscalationAwareness := 55
    interviewControlAssessment := 80
    behavioralAnalysis := "The witness grew defensive under pressure."
    legalExposureAnalysis := "Exposure concentrated on the backdating."
    missedFollowUps := ["Did not press on the offshore account."]
    improvedQuestioningPaths := ["Walk the ledger dates in order."] }

/-- A live `Active` session state after a successful start, used to
instantiate theorems at concrete inputs. -/
def activeState : AppState :=
  { difficulty := some .intermediate
    scenario := some sampleScenario
    messages := [{ role := .model, text := .str sampleScenario.witnessIntroduction }]
    inputValue := ""
    isGenerating := false
    chatSession := some ()
    finalReport := none
    latestState := .null
    currentPhase := rapportPhase }

/-- Prior `Active` state with a known-good hidden state, used to show a
malformed parsed reply is applied unvalidated. -/
def c4Prior : AppState :=
  { activeState with latestState := baselineInternalState.toJs
                     currentPhase := .str "Probing"
                     inputValue := "Who approved the transfer?" }

/-- C1 counterexample: after a successful start from the initial state,
`latestState` is still `null`, not the baseline `{70,10,20,80,90,5,0}`
object; the baseline is only written into the system prompt. -/
theorem start_leaves_latestState_null_cex :
    (startSimulation initialAppState .beginner (.ok sampleScenario)).1.latestState = JsValue.null
    ∧ baselineInternalState.toJs ≠ JsValue.null := by
  refine ⟨rfl, ?_⟩
  simp [baselineInternalState, InternalState.toJs]

/-- C1 (amended): for every difficulty tier, a successful
`startSimulation` leaves the session Active (chat session created, no
final report) with the transcript seeded with exactly one
model-authored introduction message; the baseline internal state is
embedded in the system prompt (whose state line spells out
`{70,10,20,80,90,5,0}`) but `latestState` remains `null` until the
first model turn, and the phase is the initial Rapport phase. -/
theorem startSimulation_success_spec (diff : Difficulty) (sc : Scenario) :
    (startSimulation initialAppState diff (.ok sc)).1.chatSession = some ()
    ∧ (startSimulation initialAppState diff (.ok sc)).1.finalReport = none
    ∧ (startSimulation initialAppState diff (.ok sc)).1.messages
        = [{ role := .model, text := .str sc.witnessIntroduction }]
    ∧ (startSimulation initialAppState diff (.ok sc)).1.latestState = JsValue.null
    ∧ (startSimulation initialAppState diff (.ok sc)).1.currentPhase = rapportPhase
    ∧ (startSimulation initialAppState diff (.ok sc)).1.scenario = some sc
    ∧ (startSimulation initialAppState diff (.ok sc)).1.difficulty = some diff
    ∧ (startSimulation initialAppState diff (.ok sc)).1.isGenerating = false
    ∧ (startSimulation initialAppState diff (.ok sc)).2 = false
    ∧ statePromptLine baselineInternalState
        = "Truthfulness: 70, Stress: 10, Defensiveness: 20, Cooperation: 80, Memory: 90, Exposure: 5, Legal Risk: 0." :=
  ⟨rfl, rfl, rfl, rfl, rfl, rfl, rfl, rfl, rfl, by decide⟩

/-- C2 (code bug): `startSimulation` stores the chosen difficulty
before the fallible scenario call, so when scenario generation fails
the difficulty is not equal to its pre-call value (`none`): the machine
does not remain Uninitialized, even though every other cell is
unchanged and the failure is reported via the alert. -/
theorem startSimulation_failure_persists_difficulty :
    (startSimulation initialAppState .beginner (.error ())).1.difficulty
        = some Difficulty.beginner
    ∧ initialAppState.difficulty = none
    ∧ (startSimulation initialAppState .beginner (.error ())).2 = true
    ∧ (startSimulation initialAppState .beginner (.error ())).1.scenario = none
    ∧ (startSimulation initialAppState .beginner (.error ())).1.messages = []
    ∧ (startSimulation initialAppState .beginner (.error ())).1.chatSession = none
    ∧ (startSimulation initialAppState .beginner (.error ())).1.latestState = JsValue.null
    ∧ (startSimulation initialAppState .beginner (.error ())).1.currentPhase = rapportPhase
    ∧ (startSimulation initialAppState .beginner (.error ())).1.isGenerating = false :=
  ⟨rfl, rfl, rfl, rfl, rfl, rfl, rfl, rfl, rfl⟩

/-- C3 counterexample: from a busy `Active` state (a call in flight,
no report yet), invoking `endInterview` is not rejected: the report
generator is invoked and its result is stored, mutating the state. -/
theorem endInterview_ignores_busy_cex :
    ({ activeState with isGenerating := true } : AppState).isGenerating = true
    ∧ ({ activeState with isGenerating := true } : AppState).finalReport = none
    ∧ (endInterview { activeState with isGenerating := true } (.ok sampleReport)).2
        = EndOutcome.reportStored
    ∧ (endInterview { activeState with isGenerating := true } (.ok sampleReport)).1.finalReport
        = some sampleReport :=
  ⟨rfl, rfl, rfl, rfl⟩

/-- C3 (amended): while the busy flag is set, a second
`handleSendMessage` is rejected as a complete no-op, but `endInterview`
is not gated by the busy flag: invoked on the same busy state it still
calls the report generator and stores its result. -/
theorem busy_gates_send_not_conclude (st : AppState) (sendO : Except Unit JsValue)
    (reportO : Except Unit FinalReport) (r : FinalReport)
    (hbusy : st.isGenerating = true) :
    handleSendMessage st sendO reportO = (st, .noop)
    ∧ (endInterview st (.ok r)).1.finalReport = some r := by
  constructor
  · unfold handleSendMessage
    rw [if_pos (Or.inr (Or.inr hbusy))]
  · rfl

/-- Witness for C3 at a concrete busy state. -/
theorem busy_gates_send_not_conclude_witness :
    handleSendMessage { activeState with isGenerating := true, inputValue := "And then?" }
        (.ok (.obj [])) (.error ())
      = ({ activeState with isGenerating := true, inputValue := "And then?" }, .noop)
    ∧ (endInterview { activeState with isGenerating := true, inputValue := "And then?" }
        (.ok sampleReport)).1.finalReport = some sampleReport :=
  busy_gates_send_not_conclude _ _ _ _ rfl

/-- C5: submitting the exact literal "end interview" in any letter
casing on a quiescent `Active` session appends nothing to the
transcript (and leaves the input cell alone) and always diverts to
`endInterview` instead of performing a normal turn. -/
theorem sentinel_invokes_conclusion (st : AppState) (sendO : Except Unit JsValue)
    (reportO : Except Unit FinalReport)
    (htrim : jsTrim st.inputValue ≠ "") (hchat : st.chatSession ≠ none)
    (hbusy : st.isGenerating = false)
    (hsent : jsToLower st.inputValue = "end interview") :
    (handleSendMessage st sendO reportO).2 = SendAction.concludeCalled
    ∧ (handleSendMessage st sendO reportO).1.messages = st.messages
    ∧ (handleSendMessage st sendO reportO).1.inputValue = st.inputValue := by
  have hg : ¬(jsTrim st.inputValue = "" ∨ st.chatSession = none ∨ st.isGenerating = true) := by
    simp [htrim, hchat, hbusy]
  unfold handleSendMessage
  rw [if_neg hg, if_pos hsent]
  refine ⟨rfl, ?_, ?_⟩ <;> cases reportO <;> rfl

/-- Witness for C5 with the mixed-case literal. -/
theorem sentinel_invokes_conclusion_witness :
    (handleSendMessage { activeState with inputValue := "End Interview" }
        (.error ()) (.ok sampleReport)).2 = SendAction.concludeCalled
    ∧ (handleSendMessage { activeState with inputValue := "End Interview" }
        (.error ()) (.ok sampleReport)).1.messages
      = ({ activeState with inputValue := "End Interview" } : AppState).messages
    ∧ (handleSendMessage { activeState with inputValue := "End Interview" }
        (.error ()) (.ok sampleReport)).1.inputValue
      = ({ activeState with inputValue := "End Interview" } : AppState).inputValue :=
  sentinel_invokes_conclusion _ _ _ (by decide) (by decide) rfl (by decide)

/-- C6: when the chat call or reply parsing throws on a normal turn,
exactly one fallback model message is appended after the
already-appended user message, and phase, hidden state, report cell,
and chat session are exactly their pre-call values; the busy flag ends
cleared. -/
theorem turn_failure_fallback (st : AppState) (reportO : Except Unit FinalReport)
    (htrim : jsTrim st.inputValue ≠ "") (hchat : st.chatSession ≠ none)
    (hbusy : st.isGenerating = false)
    (hsent : jsToLower st.inputValue ≠ "end interview") :
    (handleSendMessage st (.error ()) reportO).1.messages
        = st.messages ++ [userMessage st.inputValue, fallbackMessage]
    ∧ (handleSendMessage st (.error ()) reportO).1.currentPhase = st.currentPhase
    ∧ (handleSendMessage st (.error ()) reportO).1.latestState = st.latestState
    ∧ (handleSendMessage st (.error ()) reportO).1.finalReport = st.finalReport
    ∧ (handleSendMessage st (.error ()) reportO).1.chatSession = st.chatSession
    ∧ (handleSendMessage st (.error ()) reportO).1.isGenerating = false := by
  have hg : ¬(jsTrim st.inputValue = "" ∨ st.chatSession = none ∨ st.isGenerating = true) := by
    simp [htrim, hchat, hbusy]
  unfold handleSendMessage
  rw [if_neg hg, if_neg hsent]
  refine ⟨?_, rfl, rfl, rfl, rfl, rfl⟩
  simp [awaitingState, appendFallback]

/-- Witness for C6 at a concrete question. -/
theorem turn_failure_fallback_witness :
    (handleSendMessage { activeState with inputValue := "Where were you?" }
        (.error ()) (.error ())).1.messages
      = ({ activeState with inputValue := "Where were you?" } : AppState).messages
          ++ [userMessage ({ activeState with inputValue := "Where were you?" } : AppState).inputValue,
              fallbackMessage]
    ∧ (handleSendMessage { activeState with inputValue := "Where were you?" }
        (.error ()) (.error ())).1.currentPhase
      = ({ activeState with inputValue := "Where were you?" } : AppState).currentPhase
    ∧ (handleSendMessage { activeState with inputValue := "Where were you?" }
        (.error ()) (.error ())).1.latestState
      = ({ activeState with inputValue := "Where were you?" } : AppState).latestState
    ∧ (handleSendMessage { activeState with inputValue := "Where were you?" }
        (.error ()) (.error ())).1.finalReport
      = ({ activeState with inputValue := "Where were you?" } : AppState).finalReport
    ∧ (handleSendMessage { activeState with inputValue := "Where were you?" }
        (.error ()) (.error ())).1.chatSession
      = ({ activeState with inputValue := "Where were you?" } : AppState).chatSession
    ∧ (handleSendMessage { activeState with inputValue := "Where were you?" }
        (.error ()) (.error ())).1.isGenerating = false :=
  turn_failure_fallback _ _ (by decide) (by decide) rfl (by decide)

/-- C4 counterexample: a reply that parses as the empty JSON object
(which has no valid phase enumerant and none of the seven numeric
state fields) is still applied: the last-known-good `latestState` and
`currentPhase` are overwritten with `undefined` and a model message
with `undefined` text is appended instead of the fallback path. -/
theorem reply_applied_unvalidated_cex :
    (handleSendMessage c4Prior (.ok (.obj [])) (.error ())).1.latestState = JsValue.undefined
    ∧ c4Prior.latestState ≠ JsValue.undefined
    ∧ (handleSendMessage c4Prior (.ok (.obj [])) (.error ())).1.currentPhase = JsValue.undefined
    ∧ c4Prior.currentPhase ≠ JsValue.undefined
    ∧ (handleSendMessage c4Prior (.ok (.obj [])) (.error ())).1.messages
        = c4Prior.messages ++
          [userMessage "Who approved the transfer?",
           { role := .model, text := JsValue.undefined, phase := some JsValue.undefined,
             hiddenState := some JsValue.undefined }]
    ∧ (handleSendMessage c4Prior (.ok (.obj [])) (.error ())).2 = SendAction.turnCalled := by
  refine ⟨rfl, ?_, rfl, ?_, rfl, rfl⟩
  · simp [c4Prior, activeState, baselineInternalState, InternalState.toJs]
  · simp [c4Prior, activeState]

/-- C4 (amended): a parsed reply is applied after `JSON.parse` alone —
any non-nullish parsed value, whatever its shape, has its
`updatedState`, `currentPhase` and `witnessResponse` properties read
and applied with no validation of the phase enumerant or the seven
numeric fields (missing properties are applied as `undefined`). -/
theorem reply_applied_without_validation (st : AppState) (d : JsValue)
    (reportO : Except Unit FinalReport)
    (htrim : jsTrim st.inputValue ≠ "") (hchat : st.chatSession ≠ none)
    (hbusy : st.isGenerating = false)
    (hsent : jsToLower st.inputValue ≠ "end interview")
    (hd : d.isNullish = false) :
    (handleSendMessage st (.ok d) reportO).1.latestState = d.getField "updatedState"
    ∧ (handleSendMessage st (.ok d) reportO).1.currentPhase = d.getField "currentPhase"
    ∧ (handleSendMessage st (.ok d) reportO).1.messages
        = st.messages ++
          [userMessage st.inputValue,
           { role := .model, text := d.getField "witnessResponse",
             phase := some (d.getField "currentPhase"),
             hiddenState := some (d.getField "updatedState") }] := by
  have hg : ¬(jsTrim st.inputValue = "" ∨ st.chatSession = none ∨ st.isGenerating = true) := by
    simp [htrim, hchat, hbusy]
  unfold handleSendMessage
  rw [if_neg hg, if_neg hsent]
  refine ⟨?_, ?_, ?_⟩ <;> simp [applyReply, awaitingState, hd]

/-- Witness for C4 showing even a bare number reply is applied. -/
theorem reply_applied_without_validation_witness :
    (handleSendMessage { activeState with inputValue := "Walk me through the timeline." }
        (.ok (.num 5)) (.error ())).1.latestState = (JsValue.num 5).getField "updatedState"
    ∧ (handleSendMessage { activeState with inputValue := "Walk me through the timeline." }
        (.ok (.num 5)) (.error ())).1.currentPhase = (JsValue.num 5).getField "currentPhase"
    ∧ (handleSendMessage { activeState with inputValue := "Walk me through the timeline." }
        (.ok (.num 5)) (.error ())).1.messages
      = ({ activeState with inputValue := "Walk me through the timeline." } : AppState).messages ++
          [userMessage ({ activeState with inputValue := "Walk me through the timeline." } : AppState).inputValue,
           { role := .model, text := (JsValue.num 5).getField "witnessResponse",
             phase := some ((JsValue.num 5).getField "currentPhase"),
             hiddenState := some ((JsValue.num 5).getField "updatedState") }] :=
  reply_applied_without_validation _ _ _ (by decide) (by decide) rfl (by decide) rfl

/-- C8: when report generation throws, the session stays `Active` with
no final report stored, the transcript, phase, hidden state, scenario
and chat session untouched, the busy flag cleared (so the operation is
retryable), and the failure has the defined outcome of being logged
(the `console.error` path), never silently dropped. -/
theorem conclude_failure_keeps_active (st : AppState) (hrep : st.finalReport = none) :
    (endInterview st (.error ())).1.finalReport = none
    ∧ (endInterview st (.error ())).1.messages = st.messages
    ∧ (endInterview st (.error ())).1.latestState = st.latestState
    ∧ (endInterview st (.error ())).1.currentPhase = st.currentPhase
    ∧ (endInterview st (.error ())).1.chatSession = st.chatSession
    ∧ (endInterview st (.error ())).1.scenario = st.scenario
    ∧ (endInterview st (.error ())).1.isGenerating = false
    ∧ (endInterview st (.error ())).2 = EndOutcome.errorLogged :=
  ⟨hrep, rfl, rfl, rfl, rfl, rfl, rfl, rfl⟩

/-- Witness for C8 at the concrete active state. -/
theorem conclude_failure_keeps_active_witness :
    (endInterview activeState (.error ())).1.finalReport = none
    ∧ (endInterview activeState (.error ())).1.messages = activeState.messages
    ∧ (endInterview activeState (.error ())).1.latestState = activeState.latestState
    ∧ (endInterview activeState (.error ())).1.currentPhase = activeState.currentPhase
    ∧ (endInterview activeState (.error ())).1.chatSession = activeState.chatSession
    ∧ (endInterview activeState (.error ())).1.scenario = activeState.scenario
    ∧ (endInterview activeState (.error ())).1.isGenerating = false
    ∧ (endInterview activeState (.error ())).2 = EndOutcome.errorLogged :=
  conclude_failure_keeps_active _ rfl

/-- C9: on blank (empty or all-whitespace) input, or when no chat
session exists, `handleSendMessage` returns the state unchanged (no
transcript entry, phase, hidden state and busy flag as before) and
reports the no-op action (no external call). -/
theorem blank_or_no_session_noop (st : AppState) (sendO : Except Unit JsValue)
    (reportO : Except Unit FinalReport)
    (h : jsTrim st.inputValue = "" ∨ st.chatSession = none) :
    handleSendMessage st sendO reportO = (st, .noop) := by
  unfold handleSendMessage
  rw [if_pos (h.elim Or.inl (fun hb => Or.inr (Or.inl hb)))]

/-- Witness for C9 on all-whitespace input. -/
theorem blank_or_no_session_noop_witness :
    handleSendMessage { activeState with inputValue := "   " } (.ok (.obj [])) (.error ())
      = ({ activeState with inputValue := "   " }, SendAction.noop) :=
  blank_or_no_session_noop _ _ _ (Or.inl (by decide))

/-- C10: the sentinel comparison is on the lowercased untrimmed input,
so any non-blank input that is not exactly the literal (for example
one with trailing whitespace) is treated as an ordinary question: the
chat oracle is invoked and the user message is appended to the
transcript ahead of the turn result. -/
theorem sentinel_untrimmed_only (st : AppState) (d : JsValue)
    (reportO : Except Unit FinalReport)
    (htrim : jsTrim st.inputValue ≠ "") (hchat : st.chatSession ≠ none)
    (hbusy : st.isGenerating = false)
    (hsent : jsToLower st.inputValue ≠ "end interview") :
    (handleSendMessage st (.ok d) reportO).2 = SendAction.turnCalled
    ∧ ∃ m, (handleSendMessage st (.ok d) reportO).1.messages
        = st.messages ++ [userMessage st.inputValue, m] := by
  have hg : ¬(jsTrim st.inputValue = "" ∨ st.chatSession = none ∨ st.isGenerating = true) := by
    simp [htrim, hchat, hbusy]
  unfold handleSendMessage
  rw [if_neg hg, if_neg hsent]
  refine ⟨rfl, ?_⟩
  by_cases hnull : d.isNullish = true
  · exact ⟨fallbackMessage, by simp [applyReply, awaitingState, appendFallback, hnull]⟩
  · exact ⟨{ role := .model, text := d.getField "witnessResponse",
             phase := some (d.getField "currentPhase"),
             hiddenState := some (d.getField "updatedState") },
           by simp [applyReply, awaitingState, hnull]⟩

/-- Witness for C10 with trailing whitespace around the literal. -/
theorem sentinel_untrimmed_only_witness :
    (handleSendMessage { activeState with inputValue := "end interview " }
        (.ok (.obj [])) (.error ())).2 = SendAction.turnCalled
    ∧ ∃ m, (handleSendMessage { activeState with inputValue := "end interview " }
        (.ok (.obj [])) (.error ())).1.messages
      = ({ activeState with inputValue := "end interview " } : AppState).messages
          ++ [userMessage ({ activeState with inputValue := "end interview " } : AppState).inputValue, m] :=
  sentinel_untrimmed_only _ _ _ (by decide) (by decide) rfl (by decide)

/-- One successful non-sentinel turn grows the transcript by exactly
two entries (the user question and one model entry) and preserves the
chat session, ending with the busy flag cleared. Shared helper for the
transcript-length invariant. -/
theorem handleSendMessage_turn_shape (st : AppState) (q : String) (d : JsValue)
    (reportO : Except Unit FinalReport)
    (htrim : jsTrim q ≠ "") (hsent : jsToLower q ≠ "end interview")
    (hchat : st.chatSession ≠ none) (hbusy : st.isGenerating = false) :
    (handleSendMessage { st with inputValue := q } (.ok d) reportO).1.messages.length
        = st.messages.length + 2
    ∧ (handleSendMessage { st with inputValue := q } (.ok d) reportO).1.chatSession
        = st.chatSession
    ∧ (handleSendMessage { st with inputValue := q } (.ok d) reportO).1.isGenerating
        = false := by
  have hg : ¬(jsTrim ({ st with inputValue := q } : AppState).inputValue = ""
      ∨ ({ st with inputValue := q } : AppState).chatSession = none
      ∨ ({ st with inputValue := q } : AppState).isGenerating = true) := by
    simp [htrim, hchat, hbusy]
  unfold handleSendMessage
  rw [if_neg hg, if_neg hsent]
  by_cases hnull : d.isNullish = true <;>
    refine ⟨?_, ?_, ?_⟩ <;>
      simp [applyReply, awaitingState, appendFallback, hnull]

/-- Iterating successful non-sentinel turns from any quiescent session
adds two transcript entries per turn. Shared helper for the
transcript-length invariant. -/
theorem runTurns_length (ts : List (String × JsValue)) : ∀ st : AppState,
    st.chatSession ≠ none → st.isGenerating = false →
    (∀ t ∈ ts, jsTrim t.1 ≠ "" ∧ jsToLower t.1 ≠ "end interview"
        ∧ t.2.isNullish = false) →
    (runTurns st ts).messages.length = st.messages.length + 2 * ts.length := by
  induction ts with
  | nil => intro st _ _ _; simp [runTurns]
  | cons t rest ih =>
      intro st hchat hbusy hvalid
      obtain ⟨q, d⟩ := t
      have hv := hvalid _ (List.mem_cons_self _ _)
      have step := handleSendMessage_turn_shape st q d (.error ()) hv.1 hv.2.1 hchat hbusy
      unfold runTurns
      rw [ih _ (by rw [step.2.1]; exact hchat) step.2.2
          (fun u hu => hvalid u (List.mem_cons_of_mem _ hu)), step.1]
      simp [Nat.mul_add, Nat.mul_succ]
      omega

/-- C7: after a successful start (one introduction message) followed by
any sequence of N successful non-sentinel turns, the transcript has
exactly 1 + 2 N entries, and during every turn the user message is
already on the transcript in the awaited intermediate state, before
the model reply lands. -/
theorem transcript_length_invariant (diff : Difficulty) (sc : Scenario)
    (ts : List (String × JsValue))
    (hvalid : ∀ t ∈ ts, jsTrim t.1 ≠ "" ∧ jsToLower t.1 ≠ "end interview"
        ∧ t.2.isNullish = false) :
    (runTurns (startSimulation initialAppState diff (.ok sc)).1 ts).messages.length
        = 1 + 2 * ts.length
    ∧ ∀ (st : AppState) (q : String),
        (awaitingState st q).messages = st.messages ++ [userMessage q] := by
  refine ⟨?_, fun st q => rfl⟩
  have h := runTurns_length ts (startSimulation initialAppState diff (.ok sc)).1
      (by simp [startSimulation]) rfl hvalid
  simpa [startSimulation, Nat.add_comm] using h

/-- Witness for C7 with a concrete two-turn interview. -/
theorem transcript_length_invariant_witness :
    (runTurns (startSimulation initialAppState .intermediate (.ok sampleScenario)).1
        [("What did you do on March 3rd?",
          JsValue.obj [("witnessResponse", .str "I was in the office."),
                       ("currentPhase", .str "Probing"),
                       ("updatedState", baselineInternalState.toJs)]),
         ("Who else knew?", .obj [])]).messages.length
      = 1 + 2 * ([("What did you do on March 3rd?",
          JsValue.obj [("witnessResponse", .str "I was in the office."),
                       ("currentPhase", .str "Probing"),
                       ("updatedState", baselineInternalState.toJs)]),
         ("Who else knew?", (.obj [] : JsValue))] : List (String × JsValue)).length
    ∧ ∀ (st : AppState) (q : String),
        (awaitingState st q).messages = st.messages ++ [userMessage q] :=
  transcript_length_invariant _ _ _ (by decide)
